import Mathlib

/-!
Verification of the worker trading agent (a1fe/worker).

Shallow embedding of the source files:
  * src/encryption_utils.py  (EncryptionUtils.encrypt_aes_gcm / decrypt_aes_gcm)
  * src/pump_trading.py      (TradingEngine)
  * src/worker_app.py        (WorkerApp message dispatch and connection loop)

Byte strings are modelled as lists of naturals, SOL amounts and delays as
rationals, dates as integers (a day ordinal).  External library calls
(AES-GCM, base64, X25519 key exchange, the Solana RPC gateway, websockets)
are passed in as explicit function or outcome parameters; everything the
repository itself computes is translated directly from the Python source.
-/

namespace Worker

abbrev Bytes := List Nat

/-! ## Encryption envelope (src/encryption_utils.py) -/

/-- Embedding of EncryptionUtils.encrypt_aes_gcm (encryption_utils.py lines 85-121).
The AES-GCM primitive of the cryptography library is the parameter aeadEnc:
aeadEnc key nonce plaintext returns the ciphertext with the 16-byte tag
appended, exactly as AESGCM.encrypt does.  The base64 encoder is the
parameter b64e.  The fresh 12-byte nonce drawn by os.urandom(12) is passed
in as the nonce argument (it models the randomness source).  The function
splits the last 16 bytes off as the tag, as Python ciphertext_with_tag[:-16]
and ciphertext_with_tag[-16:] do, and base64-encodes the three parts. -/
def encrypt_aes_gcm (aeadEnc : Bytes → Bytes → Bytes → Bytes) (b64e : Bytes → Bytes)
    (plaintext : Bytes) (shared_key_bytes : Bytes) (nonce : Bytes) :
    Bytes × Bytes × Bytes :=
  let ciphertext_with_tag := aeadEnc shared_key_bytes nonce plaintext
  let ciphertext := ciphertext_with_tag.take (ciphertext_with_tag.length - 16)
  let tag := ciphertext_with_tag.drop (ciphertext_with_tag.length - 16)
  (b64e ciphertext, b64e nonce, b64e tag)

/-- Embedding of EncryptionUtils.decrypt_aes_gcm (encryption_utils.py lines
123-159).  The base64 decoder b64d returns none on malformed input (a raise
in Python), the AES-GCM decryption aeadDec returns none when the
authentication tag does not verify (InvalidTag in Python).  The function
decodes the three parts, re-concatenates ciphertext and tag as the source
does with ciphertext + tag, and decrypts. -/
def decrypt_aes_gcm (aeadDec : Bytes → Bytes → Bytes → Option Bytes)
    (b64d : Bytes → Option Bytes)
    (ciphertext_base64 nonce_base64 tag_base64 : Bytes)
    (shared_key_bytes : Bytes) : Option Bytes :=
  match b64d ciphertext_base64, b64d nonce_base64, b64d tag_base64 with
  | some ciphertext, some nonce, some tag =>
      aeadDec shared_key_bytes nonce (ciphertext ++ tag)
  | _, _, _ => none

/-! ## Trading engine (src/pump_trading.py) -/

/-- The validation and execution failures raised as ValueError by
TradingEngine, one constructor per distinct raise site, carrying the values
interpolated into the Python message strings. -/
inductive TradeError where
  | noTokenAddress : TradeError
  | walletNotInitialized : TradeError
  | sizeAboveMax (amount max : ℚ) : TradeError
  | sizeBelowMin (amount min : ℚ) : TradeError
  | dailyLimitExceeded (total limit : ℚ) : TradeError
  | insufficientFunds (balance required : ℚ) : TradeError
  | executionError (msg : String) : TradeError
  deriving DecidableEq

/-- Which TradeError comes from the two trade-size checks of
_check_trade_limits. -/
def isSizeRejection : TradeError → Bool
  | .sizeAboveMax _ _ => true
  | .sizeBelowMin _ _ => true
  | _ => false

/-- The TradeResult dataclass (pump_trading.py lines 23-38), restricted to
the fields the claims are about. -/
structure TradeResult where
  success : Bool
  transaction_id : Option String
  error_message : Option TradeError
  token_address : Option String
  amount_sol : Option ℚ
  execution_time_ms : Option Nat
  deriving DecidableEq

/-- The trade_stats dictionary of TradingEngine (pump_trading.py lines 51-57). -/
structure TradeStats where
  total_trades : Nat
  successful_trades : Nat
  failed_trades : Nat
  total_volume_sol : ℚ
  average_execution_time : ℚ
  deriving DecidableEq

/-- The mutable state of a TradingEngine instance: whether trading_keypair
is set, the daily-volume limit state, and the statistics dictionary. -/
structure EngineState where
  has_keypair : Bool
  daily_volume_used : ℚ
  last_reset_day : ℤ
  trade_stats : TradeStats
  deriving DecidableEq

/-- The configuration fields of WorkerConfig (src/config.py) that the
trading engine and the connection loop read. -/
structure WorkerConfig where
  max_slippage : ℚ
  trade_amount_sol : ℚ
  max_trade_size_sol : ℚ
  min_trade_size_sol : ℚ
  daily_trade_limit_sol : ℚ
  retry_delay : ℚ
  backoff_factor : ℚ
  mock_trading : Bool
  encryption_enabled : Bool
  deriving DecidableEq

/-- A pump_command message (worker_app.py / pump_trading.py): the fields
read with command.get, each optional because dict.get returns None on a
missing key. -/
structure PumpCommand where
  token_address : Option String
  amount_sol : Option ℚ
  max_slippage : Option ℚ
  command_id : Option String
  deriving DecidableEq

/-- The outcomes of the external world during one trade attempt:
the current UTC date, the Solana get_balance response in lamports (none
when the RPC call raises), the outcome of the real-trade gateway
interaction of _execute_real_trade (token lookup, build, sign, submit,
confirmation — ok txid, or the error text wrapped into the re-raised
ValueError), the timestamp suffix of the mock transaction id, and the
measured execution time. -/
structure TradeEnv where
  current_date : ℤ
  balance_lamports : Option ℤ
  real_trade : Except String String
  mock_tx_suffix : String
  exec_time_ms : Nat

/-- Python truthiness of an optional string: None and the empty string are
falsy. -/
def strTruthy : Option String → Bool
  | none => false
  | some s => !s.isEmpty

/-- Embedding of TradingEngine._get_wallet_balance (pump_trading.py lines
243-250): the lamports value divided by 1e9, and 0.0 when the RPC query
raised. -/
def get_wallet_balance (balance_lamports : Option ℤ) : ℚ :=
  match balance_lamports with
  | some lamports => (lamports : ℚ) / 1000000000
  | none => 0

/-- Embedding of TradingEngine._check_trade_limits (pump_trading.py lines
147-169).  Returns the rejection raised, if any, together with the engine
state after the call; the daily reset mutates the state even when a later
check raises, as the Python instance attributes do. -/
def check_trade_limits (cfg : WorkerConfig) (st : EngineState) (env : TradeEnv)
    (amount_sol : ℚ) : Option TradeError × EngineState :=
  let st :=
    if st.last_reset_day < env.current_date then
      { st with daily_volume_used := 0, last_reset_day := env.current_date }
    else st
  if cfg.max_trade_size_sol < amount_sol then
    (some (.sizeAboveMax amount_sol cfg.max_trade_size_sol), st)
  else if amount_sol < cfg.min_trade_size_sol then
    (some (.sizeBelowMin amount_sol cfg.min_trade_size_sol), st)
  else if cfg.daily_trade_limit_sol < st.daily_volume_used + amount_sol then
    (some (.dailyLimitExceeded (st.daily_volume_used + amount_sol)
      cfg.daily_trade_limit_sol), st)
  else
    let balance := get_wallet_balance env.balance_lamports
    if balance < amount_sol * (11 / 10 : ℚ) then
      (some (.insufficientFunds balance (amount_sol * (11 / 10 : ℚ))), st)
    else
      (none, st)

/-- Embedding of TradingEngine._update_trade_stats (pump_trading.py lines
342-358).  The two Python truthiness tests (if result.amount_sol, if
result.execution_time_ms) skip the update when the field is None or zero. -/
def update_trade_stats (stats : TradeStats) (result : TradeResult) : TradeStats :=
  let stats := { stats with total_trades := stats.total_trades + 1 }
  let stats :=
    if result.success then
      { stats with
        successful_trades := stats.successful_trades + 1
        total_volume_sol := stats.total_volume_sol +
          (match result.amount_sol with
           | some a => if a = 0 then 0 else a
           | none => 0) }
    else
      { stats with failed_trades := stats.failed_trades + 1 }
  match result.execution_time_ms with
  | some t =>
      if t = 0 then stats
      else
        { stats with average_execution_time :=
            (stats.average_execution_time * ((stats.total_trades - 1 : Nat) : ℚ)
              + (t : ℚ)) / (stats.total_trades : ℚ) }
  | none => stats

/-- Embedding of TradingEngine._mock_trade (pump_trading.py lines 222-241):
a synthetic successful result with a transaction id prefixed mock_. -/
def mock_trade (token_address : Option String) (amount_sol : ℚ)
    (env : TradeEnv) : TradeResult :=
  { success := true
    transaction_id := some (String.append "mock_" env.mock_tx_suffix)
    error_message := none
    token_address := token_address
    amount_sol := some amount_sol
    execution_time_ms := some env.exec_time_ms }

/-- Embedding of TradingEngine._execute_real_trade (pump_trading.py lines
171-220).  The gateway interactions (token lookup, transaction build, sign,
submit, confirmation polling) are collapsed into the env.real_trade outcome:
ok txid for a confirmed transaction, error for any raise, which the source
re-wraps into a ValueError.  On success daily_volume_used is incremented by
the traded amount (line 205); on failure no state is changed. -/
def execute_real_trade (st : EngineState) (env : TradeEnv)
    (token_address : String) (amount_sol : ℚ) :
    Except TradeError (TradeResult × EngineState) :=
  match env.real_trade with
  | .error e => .error (.executionError e)
  | .ok tx_id =>
      .ok ({ success := true
             transaction_id := some tx_id
             error_message := none
             token_address := some token_address
             amount_sol := some amount_sol
             execution_time_ms := some env.exec_time_ms },
           { st with daily_volume_used := st.daily_volume_used + amount_sol })

/-- The failure TradeResult built in the except branch of execute_pump_trade
(pump_trading.py lines 133-145): token_address and amount_sol are re-read
from the raw command, so they stay None when the command omitted them. -/
def failResult (command : PumpCommand) (e : TradeError) (env : TradeEnv) :
    TradeResult :=
  { success := false
    transaction_id := none
    error_message := some e
    token_address := command.token_address
    amount_sol := command.amount_sol
    execution_time_ms := some env.exec_time_ms }

/-- The result of one execute_pump_trade call: the TradeResult returned,
the engine state afterwards, and how many times _execute_real_trade was
entered (0 when validation failed or mock mode bypassed the gateway). -/
structure PumpOutcome where
  result : TradeResult
  engine : EngineState
  gateway_executions : Nat
  deriving DecidableEq

/-- Embedding of TradingEngine.execute_pump_trade (pump_trading.py lines
97-145).  amount_sol defaults to config.trade_amount_sol when missing; a
falsy token address or a missing keypair raise before the limit checks; in
mock mode the method returns the mock result directly (before the
_update_trade_stats call of line 129); a real trade updates the statistics
only when _execute_real_trade returned, i.e. succeeded; every raise is
caught by the except branch of lines 133-145 which returns a failure
result without touching the statistics. -/
def execute_pump_trade (cfg : WorkerConfig) (st : EngineState) (env : TradeEnv)
    (command : PumpCommand) : PumpOutcome :=
  let amount_sol := command.amount_sol.getD cfg.trade_amount_sol
  if !strTruthy command.token_address then
    ⟨failResult command .noTokenAddress env, st, 0⟩
  else if !st.has_keypair then
    ⟨failResult command .walletNotInitialized env, st, 0⟩
  else
    match check_trade_limits cfg st env amount_sol with
    | (some e, st) => ⟨failResult command e env, st, 0⟩
    | (none, st) =>
        if cfg.mock_trading then
          ⟨mock_trade command.token_address amount_sol env, st, 0⟩
        else
          match execute_real_trade st env (command.token_address.getD "") amount_sol with
          | .error e => ⟨failResult command e env, st, 1⟩
          | .ok (result, st) =>
              ⟨result, { st with trade_stats := update_trade_stats st.trade_stats result }, 1⟩

/-- The fail-fast validation sequence of execute_pump_trade and
_check_trade_limits as a single function: the first rejection raised, if
any.  Used to state properties over all validation failures at once. -/
def validate_pump_command (cfg : WorkerConfig) (st : EngineState) (env : TradeEnv)
    (command : PumpCommand) : Option TradeError :=
  if !strTruthy command.token_address then some .noTokenAddress
  else if !st.has_keypair then some .walletNotInitialized
  else (check_trade_limits cfg st env (command.amount_sol.getD cfg.trade_amount_sol)).1

/-! ## Worker application (src/worker_app.py) -/

/-- The parts of a WorkerApp instance the claims are about (worker_app.py
__init__, lines 35-88): the encryption key material and derived shared key,
the wallet mapping, the trading-engine state (none before initialization),
the websocket, and the stats counters.  metrics_errors counts the
metrics.increment_errors calls. -/
structure WorkerState where
  encryption_enabled : Bool
  worker_private_key : Option String
  coordinator_public_key : Option String
  shared_key : Option Bytes
  wallets : List (Nat × String)
  engine : Option EngineState
  is_running : Bool
  websocket_open : Bool
  messages_sent : Nat
  messages_received : Nat
  trades_executed : Nat
  metrics_errors : Nat

/-- The outbound messages the dispatch handlers send (worker_app.py),
restricted to the fields the claims mention. -/
inductive OutMessage where
  | pump_result (command_id : Option String) (result : TradeResult)
  | pump_error (command_id : Option String) (error : String)
  | heartbeat_ack
  | wallet_assigned (wallet_index : Nat) (public_key : String)
  | worker_status
  deriving DecidableEq

/-- The inbound message kinds dispatched by _process_message
(worker_app.py lines 400-416). -/
inductive InMessage where
  | registration_success (coordinator_key : Option String)
  | registration_error (msg : String)
  | pump_command (command : PumpCommand)
  | heartbeat_request
  | wallet_assignment (wallet_index : Nat) (encrypted_private_key : Option String)
  | status_request
  | unknown (t : String)

/-- External outcomes during one dispatch cycle: the trade environment and
the result of decrypting and parsing an assigned wallet key
(EncryptionUtils.decrypt_wallet_key plus Keypair.from_bytes — some public
key on success, none when any of them raised). -/
structure WorkerEnv where
  trade : TradeEnv
  wallet_decrypt : Option String

/-- Embedding of WorkerApp._send_message (worker_app.py lines 316-343):
raises (none) when the websocket is closed, otherwise counts the message
sent.  The encryption branch does not change the observable state beyond
the counter. -/
def send_message (st : WorkerState) : Option WorkerState :=
  if st.websocket_open then
    some { st with messages_sent := st.messages_sent + 1 }
  else
    none

/-- What one dispatched handler produced: the state afterwards, the
messages successfully sent, and whether an exception escaped the handler
into _process_message's own except branch. -/
structure DispatchOut where
  state : WorkerState
  sent : List OutMessage
  escaped : Bool

/-- Embedding of WorkerApp._handle_pump_command (worker_app.py lines
445-487).  The try branch raises when the trading engine is missing,
otherwise runs execute_pump_trade (which never raises) and sends a
pump_result; the except branch sends a pump_error carrying the command id
and then increments the error metric; if sending the pump_error itself
raises, the exception escapes to the dispatch boundary. -/
def handle_pump_command (cfg : WorkerConfig) (st : WorkerState) (env : TradeEnv)
    (command : PumpCommand) : DispatchOut :=
  match st.engine with
  | none =>
      match send_message st with
      | some st =>
          ⟨{ st with metrics_errors := st.metrics_errors + 1 },
           [.pump_error command.command_id "trading engine not initialized"], false⟩
      | none => ⟨st, [], true⟩
  | some eng =>
      let out := execute_pump_trade cfg eng env command
      let st := { st with engine := some out.engine }
      match send_message st with
      | some st =>
          ⟨{ st with trades_executed := st.trades_executed + 1 },
           [.pump_result command.command_id out.result], false⟩
      | none =>
          match send_message st with
          | some st2 =>
              ⟨{ st2 with metrics_errors := st2.metrics_errors + 1 },
               [.pump_error command.command_id "send failed"], false⟩
          | none => ⟨st, [], true⟩

/-- Embedding of WorkerApp._handle_wallet_assignment (worker_app.py lines
503-538).  The whole body sits in a try whose except only logs, so no
exception ever escapes this handler: a missing shared key, a failed
decryption, or a failed send all leave quietly.  The wallet is stored
before the confirmation is sent, so a failed send keeps the wallet. -/
def handle_wallet_assignment (st : WorkerState) (env : WorkerEnv)
    (wallet_index : Nat) (encrypted_private_key : Option String) : DispatchOut :=
  match st.shared_key with
  | none => ⟨st, [], false⟩
  | some _ =>
      match encrypted_private_key, env.wallet_decrypt with
      | some _, some public_key =>
          let st := { st with wallets := (wallet_index, public_key) :: st.wallets }
          match send_message st with
          | some st => ⟨st, [.wallet_assigned wallet_index public_key], false⟩
          | none => ⟨st, [], false⟩
      | _, _ => ⟨st, [], false⟩

/-- Embedding of WorkerApp._initialize_encryption (worker_app.py lines
181-199).  The X25519 exchange plus HKDF of
EncryptionUtils.perform_key_exchange_x25519 is the derive parameter, none
modelling its raise on malformed key material.  Returns the state and
whether the ValueError of line 199 was raised.  Early returns: encryption
disabled, or either key falsy (None or empty). -/
def initialize_encryption (derive : String → String → Option Bytes)
    (st : WorkerState) : WorkerState × Bool :=
  if !st.encryption_enabled then (st, false)
  else
    match st.worker_private_key, st.coordinator_public_key with
    | some sk, some pk =>
        if sk.isEmpty || pk.isEmpty then (st, false)
        else
          match derive sk pk with
          | some s => ({ st with shared_key := some s }, false)
          | none => (st, true)
    | _, _ => (st, false)

/-- Embedding of WorkerApp._handle_registration_success (worker_app.py
lines 423-435): when the message carries a truthy coordinator public key
and none is known yet, the key is stored and _initialize_encryption is
run; a raise from it escapes to the dispatch boundary with the new key
already stored. -/
def handle_registration_success (derive : String → String → Option Bytes)
    (st : WorkerState) (coordinator_key : Option String) : DispatchOut :=
  if strTruthy coordinator_key && !strTruthy st.coordinator_public_key then
    let r := initialize_encryption derive
      { st with coordinator_public_key := coordinator_key }
    ⟨r.1, [], r.2⟩
  else
    ⟨st, [], false⟩

/-- Embedding of WorkerApp._handle_registration_error (worker_app.py lines
437-443): a fatal error — the worker shuts down. -/
def handle_registration_error (st : WorkerState) : DispatchOut :=
  ⟨{ st with is_running := false, websocket_open := false }, [], false⟩

/-- Embedding of WorkerApp._handle_heartbeat_request (worker_app.py lines
489-501): sends the heartbeat_ack; a failed send escapes to the dispatch
boundary. -/
def handle_heartbeat_request (st : WorkerState) : DispatchOut :=
  match send_message st with
  | some st => ⟨st, [.heartbeat_ack], false⟩
  | none => ⟨st, [], true⟩

/-- Embedding of WorkerApp._handle_status_request (worker_app.py lines
540-559): sends the worker_status snapshot; a failed send escapes. -/
def handle_status_request (st : WorkerState) : DispatchOut :=
  match send_message st with
  | some st => ⟨st, [.worker_status], false⟩
  | none => ⟨st, [], true⟩

/-- The dispatch table of WorkerApp._process_message (worker_app.py lines
400-416): route by message type; unknown types are logged and ignored. -/
def dispatch_message (derive : String → String → Option Bytes)
    (cfg : WorkerConfig) (st : WorkerState) (env : WorkerEnv)
    (msg : InMessage) : DispatchOut :=
  match msg with
  | .registration_success k => handle_registration_success derive st k
  | .registration_error _ => handle_registration_error st
  | .pump_command c => handle_pump_command cfg st env.trade c
  | .heartbeat_request => handle_heartbeat_request st
  | .wallet_assignment i k => handle_wallet_assignment st env i k
  | .status_request => handle_status_request st
  | .unknown _ => ⟨st, [], false⟩

/-- Embedding of WorkerApp._process_message (worker_app.py lines 386-421):
counts the message received, dispatches, and catches anything a handler
let escape in its own except branch (lines 418-421), which logs and
increments the error metric — so the function always returns normally and
the receive loop of message_handler continues. -/
def process_message (derive : String → String → Option Bytes)
    (cfg : WorkerConfig) (st : WorkerState) (env : WorkerEnv)
    (msg : InMessage) : WorkerState × List OutMessage :=
  let st := { st with messages_received := st.messages_received + 1 }
  let d := dispatch_message derive cfg st env msg
  if d.escaped then
    ({ d.state with metrics_errors := d.state.metrics_errors + 1 }, d.sent)
  else
    (d.state, d.sent)

/-! ## Connection loop (worker_app.py connect_to_coordinator) -/

/-- Embedding of WorkerApp.connect_to_coordinator (worker_app.py lines
250-292).  The successive outcomes of websockets.connect plus the
registration send are the outcomes list (true = connected and registered).
Arguments after the colon: the current reconnect_attempts counter, the
local retry_delay variable, and the outcomes still available.  Returns the
asyncio.sleep waits performed, the final reconnect_attempts, whether the
call returned True, and the outcomes not consumed.  On failure the counter
is incremented and, while still below max_reconnect_attempts, the loop
waits retry_delay and multiplies it by the backoff factor; on success the
counter resets to zero; the loop exits with False once the counter reaches
max_reconnect_attempts. -/
def connect_to_coordinator (backoff_factor : ℚ) (max_reconnect_attempts : Nat) :
    Nat → ℚ → List Bool → List ℚ × Nat × Bool × List Bool
  | reconnect_attempts, _, [] => ([], reconnect_attempts, false, [])
  | reconnect_attempts, retry_delay, ok :: rest =>
    if max_reconnect_attempts ≤ reconnect_attempts then
      ([], reconnect_attempts, false, ok :: rest)
    else if ok then
      ([], 0, true, rest)
    else
      let attempts := reconnect_attempts + 1
      if attempts < max_reconnect_attempts then
        let r := connect_to_coordinator backoff_factor max_reconnect_attempts
          attempts (retry_delay * backoff_factor) rest
        (retry_delay :: r.1, r.2.1, r.2.2.1, r.2.2.2)
      else
        connect_to_coordinator backoff_factor max_reconnect_attempts
          attempts retry_delay rest

/-! ## Derived-key consistency (claim C8 machinery) -/

/-- The shared key the current key material yields: the derivation
_initialize_encryption would perform right now, none when encryption is
disabled, a key is missing or falsy, or the exchange itself fails. -/
def derived_shared (derive : String → String → Option Bytes)
    (st : WorkerState) : Option Bytes :=
  if st.encryption_enabled then
    match st.worker_private_key, st.coordinator_public_key with
    | some sk, some pk => if sk.isEmpty || pk.isEmpty then none else derive sk pk
    | _, _ => none
  else none

/-- The session-key consistency invariant: whenever a shared key is held,
it is exactly the key derived from the worker private key and the
currently stored coordinator public key, both of which are present and
non-empty. -/
def crypto_inv (derive : String → String → Option Bytes)
    (st : WorkerState) : Prop :=
  ∀ s, st.shared_key = some s →
    ∃ sk pk, st.worker_private_key = some sk ∧
      st.coordinator_public_key = some pk ∧
      sk.isEmpty = false ∧ pk.isEmpty = false ∧ derive sk pk = some s

/-- Whether an outbound message is a pump_error. -/
def isPumpError : OutMessage → Bool
  | .pump_error _ _ => true
  | _ => false

/-! ## Concrete fixtures used by witnesses and counterexamples -/

/-- A concrete configuration with the defaults of src/config.py:
trade_amount_sol 0.01, max 1.0, min 0.001, daily limit 10.0, retry delay
1.0, backoff 2.0, real trading. -/
def cfgFix : WorkerConfig :=
  { max_slippage := 5 / 100, trade_amount_sol := 1 / 100, max_trade_size_sol := 1,
    min_trade_size_sol := 1 / 1000, daily_trade_limit_sol := 10, retry_delay := 1,
    backoff_factor := 2, mock_trading := false, encryption_enabled := true }

/-- cfgFix with mock trading switched on. -/
def cfgMockFix : WorkerConfig := { cfgFix with mock_trading := true }

/-- Freshly initialised trade statistics (pump_trading.py lines 51-57). -/
def statsZero : TradeStats :=
  { total_trades := 0, successful_trades := 0, failed_trades := 0,
    total_volume_sol := 0, average_execution_time := 0 }

/-- A freshly initialised engine with a funded keypair. -/
def engFix : EngineState :=
  { has_keypair := true, daily_volume_used := 0, last_reset_day := 0,
    trade_stats := statsZero }

/-- A benign environment: the gateway reports a 1 SOL balance and the real
trade would confirm as transaction tx1. -/
def envFix : TradeEnv :=
  { current_date := 0, balance_lamports := some 1000000000,
    real_trade := .ok "tx1", mock_tx_suffix := "123", exec_time_ms := 5 }

/-- A well-formed pump command for 0.01 SOL of TOKEN1. -/
def cmdFix : PumpCommand :=
  { token_address := some "TOKEN1", amount_sol := some (1 / 100),
    max_slippage := none, command_id := some "c1" }

/-- A worker before registration: encryption on, own private key set, no
coordinator key, no shared key, engine initialised, socket open. -/
def stRegFix : WorkerState :=
  { encryption_enabled := true, worker_private_key := some "sk",
    coordinator_public_key := none, shared_key := none, wallets := [],
    engine := some engFix, is_running := true, websocket_open := true,
    messages_sent := 0, messages_received := 0, trades_executed := 0,
    metrics_errors := 0 }

/-- A dispatch environment around envFix with a decryptable wallet key. -/
def envWFix : WorkerEnv :=
  { trade := envFix, wallet_decrypt := some "WALLETPUB" }

/-- A stale engine: 7 SOL of volume recorded yesterday (day -1). -/
def engStaleFix : EngineState :=
  { engFix with daily_volume_used := 7, last_reset_day := -1 }

/-- cmdFix with the token address missing, so validation fails at the
first check. -/
def cmdNoTokenFix : PumpCommand := { cmdFix with token_address := none }

/-- The registered fixture worker before its trading engine exists. -/
def stNoEngFix : WorkerState := { stRegFix with engine := none }

/-- envFix during a gateway outage: the balance query raises. -/
def envOutFix : TradeEnv := { envFix with balance_lamports := none }

/-! ## Theorems -/

/-- Helper: the rejection returned by check_trade_limits, written as nested
conditionals with the daily volume already resolved through the reset. -/
theorem check_trade_limits_fst (cfg : WorkerConfig) (st : EngineState) (env : TradeEnv)
    (amount : ℚ) :
    (check_trade_limits cfg st env amount).1 =
      (if cfg.max_trade_size_sol < amount then
        some (.sizeAboveMax amount cfg.max_trade_size_sol)
       else if amount < cfg.min_trade_size_sol then
        some (.sizeBelowMin amount cfg.min_trade_size_sol)
       else if cfg.daily_trade_limit_sol <
          (if st.last_reset_day < env.current_date then 0 else st.daily_volume_used)
            + amount then
        some (.dailyLimitExceeded
          ((if st.last_reset_day < env.current_date then 0 else st.daily_volume_used)
            + amount)
          cfg.daily_trade_limit_sol)
       else if get_wallet_balance env.balance_lamports < amount * (11 / 10 : ℚ) then
        some (.insufficientFunds (get_wallet_balance env.balance_lamports)
          (amount * (11 / 10 : ℚ)))
       else none) := by
  by_cases hr : st.last_reset_day < env.current_date <;>
    simp [check_trade_limits, hr,
      apply_ite (f := Prod.fst (α := Option TradeError) (β := EngineState))]

/-- Helper: the engine state returned by check_trade_limits is the input
state with the daily reset applied when due, in every branch. -/
theorem check_trade_limits_snd (cfg : WorkerConfig) (st : EngineState) (env : TradeEnv)
    (amount : ℚ) :
    (check_trade_limits cfg st env amount).2 =
      (if st.last_reset_day < env.current_date then
        { st with daily_volume_used := 0, last_reset_day := env.current_date }
       else st) := by
  by_cases hr : st.last_reset_day < env.current_date <;>
    simp [check_trade_limits, hr,
      apply_ite (f := Prod.snd (α := Option TradeError) (β := EngineState))]

/-- C1: for every message m (as bytes) and every shared key k, decrypting
the (ciphertext, nonce, tag) triple produced by encrypt_aes_gcm under the
same key k returns exactly m, given that the external AES-GCM primitive
decrypts what it encrypted and the base64 codec round-trips — the
repository's own splitting of the tag, base64 wrapping and re-concatenation
preserve the round trip. -/
theorem c1_encrypt_decrypt_roundtrip
    (aeadEnc : Bytes → Bytes → Bytes → Bytes)
    (aeadDec : Bytes → Bytes → Bytes → Option Bytes)
    (b64e : Bytes → Bytes) (b64d : Bytes → Option Bytes)
    (hB : ∀ x, b64d (b64e x) = some x)
    (hA : ∀ k n pt, aeadDec k n (aeadEnc k n pt) = some pt)
    (m k nonce : Bytes) :
    decrypt_aes_gcm aeadDec b64d
      (encrypt_aes_gcm aeadEnc b64e m k nonce).1
      (encrypt_aes_gcm aeadEnc b64e m k nonce).2.1
      (encrypt_aes_gcm aeadEnc b64e m k nonce).2.2 k = some m := by
  unfold encrypt_aes_gcm decrypt_aes_gcm
  simp only [hB]
  rw [List.take_append_drop]
  exact hA k nonce m

/-- C1 witness: the round trip evaluated at a concrete message, key and
nonce, with a concrete AEAD (append a 16-byte tag) and the identity base64
codec. -/
theorem c1_encrypt_decrypt_roundtrip_witness :
    decrypt_aes_gcm (fun _ _ c => some (c.take (c.length - 16))) some
      (encrypt_aes_gcm (fun _ _ pt => pt ++ List.replicate 16 0) id [104, 105] [1] [7]).1
      (encrypt_aes_gcm (fun _ _ pt => pt ++ List.replicate 16 0) id [104, 105] [1] [7]).2.1
      (encrypt_aes_gcm (fun _ _ pt => pt ++ List.replicate 16 0) id [104, 105] [1] [7]).2.2
      [1] = some [104, 105] :=
  c1_encrypt_decrypt_roundtrip _ _ _ _ (fun _ => rfl)
    (fun _ _ pt => by simp) [104, 105] [1] [7]

/-- C2: trade-size bounds are inclusive — every amount strictly above
max_trade_size_sol is rejected with the size rejection (in particular
max_trade_size_sol + 0.0001), while an amount exactly at
max_trade_size_sol or exactly at min_trade_size_sol passes both size
checks: any rejection it still receives is not a size rejection. -/
theorem c2_trade_size_bounds_inclusive (cfg : WorkerConfig) (st : EngineState)
    (env : TradeEnv) (hminmax : cfg.min_trade_size_sol ≤ cfg.max_trade_size_sol) :
    (∀ amount, cfg.max_trade_size_sol < amount →
      (check_trade_limits cfg st env amount).1 =
        some (.sizeAboveMax amount cfg.max_trade_size_sol)) ∧
    (check_trade_limits cfg st env (cfg.max_trade_size_sol + 1 / 10000)).1 =
      some (.sizeAboveMax (cfg.max_trade_size_sol + 1 / 10000) cfg.max_trade_size_sol) ∧
    (∀ e, (check_trade_limits cfg st env cfg.max_trade_size_sol).1 = some e →
      isSizeRejection e = false) ∧
    (∀ e, (check_trade_limits cfg st env cfg.min_trade_size_sol).1 = some e →
      isSizeRejection e = false) := by
  refine ⟨?_, ?_, ?_, ?_⟩
  · intro amount h
    rw [check_trade_limits_fst, if_pos h]
  · rw [check_trade_limits_fst, if_pos (by linarith)]
  · intro e he
    rw [check_trade_limits_fst, if_neg (lt_irrefl _), if_neg (not_lt.2 hminmax)] at he
    repeat' split at he
    all_goals
      first
      | (injection he with he; subst he; rfl)
      | exact Option.noConfusion he
  · intro e he
    rw [check_trade_limits_fst, if_neg (not_lt.2 hminmax), if_neg (lt_irrefl _)] at he
    repeat' split at he
    all_goals
      first
      | (injection he with he; subst he; rfl)
      | exact Option.noConfusion he

/-- C2 witness: with the default limits (min 0.001, max 1.0), the amount
max + 0.0001 is rejected by the size check. -/
theorem c2_trade_size_bounds_inclusive_witness :
    (check_trade_limits cfgFix engFix envFix (cfgFix.max_trade_size_sol + 1 / 10000)).1 =
      some (.sizeAboveMax (cfgFix.max_trade_size_sol + 1 / 10000)
        cfgFix.max_trade_size_sol) :=
  (c2_trade_size_bounds_inclusive cfgFix engFix envFix (by norm_num [cfgFix])).2.1

/-- C3: when the current date is strictly later than last_reset_day, the
limit check behaves exactly as if daily_volume_used were 0 and
last_reset_day were the current date; in every outcome the returned state
carries the reset fields; and, whenever the size checks pass, the
daily-limit rejection fires precisely on 0 + amount exceeding the daily
limit — the stale volume X plays no part. -/
theorem c3_daily_volume_reset (cfg : WorkerConfig) (st : EngineState) (env : TradeEnv)
    (amount : ℚ) (h : st.last_reset_day < env.current_date) :
    check_trade_limits cfg st env amount =
      check_trade_limits cfg
        { st with daily_volume_used := 0, last_reset_day := env.current_date }
        env amount ∧
    (check_trade_limits cfg st env amount).2.daily_volume_used = 0 ∧
    (check_trade_limits cfg st env amount).2.last_reset_day = env.current_date ∧
    (amount ≤ cfg.max_trade_size_sol → cfg.min_trade_size_sol ≤ amount →
      ((check_trade_limits cfg st env amount).1 =
          some (.dailyLimitExceeded (0 + amount) cfg.daily_trade_limit_sol) ↔
        cfg.daily_trade_limit_sol < 0 + amount)) := by
  refine ⟨?_, ?_, ?_, ?_⟩
  · refine Prod.ext ?_ ?_
    · rw [check_trade_limits_fst, check_trade_limits_fst]
      simp [h]
    · rw [check_trade_limits_snd, check_trade_limits_snd]
      simp [h]
  · rw [check_trade_limits_snd, if_pos h]
  · rw [check_trade_limits_snd, if_pos h]
  · intro hle hge
    rw [check_trade_limits_fst, if_neg (not_lt.2 hle), if_neg (not_lt.2 hge), if_pos h]
    constructor
    · intro he
      split at he
      · assumption
      · split at he
        · exact absurd he (by simp)
        · exact absurd he (by simp)
    · intro hlt
      rw [if_pos hlt]

/-- C3 witness: an engine that recorded 7 SOL yesterday has its volume
reset to zero by a limit check run today. -/
theorem c3_daily_volume_reset_witness :
    (check_trade_limits cfgFix engStaleFix envFix (1 / 100)).2.daily_volume_used = 0 :=
  (c3_daily_volume_reset cfgFix engStaleFix envFix (1 / 100) (by decide)).2.1

/-- C6: with retry delay 1.0, backoff factor 2.0 and the hard-coded
max_reconnect_attempts of 10, three consecutive connection failures wait
exactly 1.0, 2.0, 4.0 seconds; twelve pending failures stop the loop after
the tenth with the remaining attempts not consumed; and any successful
connection resets the attempt counter to zero. -/
theorem c6_reconnect_backoff (a : Nat) (d : ℚ) (rest : List Bool) (h : a < 10) :
    connect_to_coordinator 2 10 0 1 [false, false, false] = ([1, 2, 4], 3, false, []) ∧
    connect_to_coordinator 2 10 0 1 (List.replicate 12 false) =
      ([1, 2, 4, 8, 16, 32, 64, 128, 256], 10, false, [false, false]) ∧
    connect_to_coordinator 2 10 a d (true :: rest) = ([], 0, true, rest) := by
  refine ⟨by norm_num [connect_to_coordinator],
    by norm_num [connect_to_coordinator, List.replicate], ?_⟩
  simp [connect_to_coordinator, Nat.not_le.2 h]

/-- C6 witness: the backoff conjunction evaluated with the reset clause at
attempt counter 3 and delay 5. -/
theorem c6_reconnect_backoff_witness :
    connect_to_coordinator 2 10 0 1 [false, false, false] = ([1, 2, 4], 3, false, []) ∧
    connect_to_coordinator 2 10 0 1 (List.replicate 12 false) =
      ([1, 2, 4, 8, 16, 32, 64, 128, 256], 10, false, [false, false]) ∧
    connect_to_coordinator 2 10 3 5 (true :: []) = ([], 0, true, []) :=
  c6_reconnect_backoff 3 5 [] (by decide)

/-- C9: a wallet_assignment arriving while no session key is established
leaves the handler gracefully: the state (in particular the wallet
mapping) is unchanged, no wallet_assigned response is sent, and no
exception escapes towards the receive loop. -/
theorem c9_wallet_assignment_without_session (st : WorkerState) (env : WorkerEnv)
    (wallet_index : Nat) (encrypted_private_key : Option String)
    (h : st.shared_key = none) :
    handle_wallet_assignment st env wallet_index encrypted_private_key =
      ⟨st, [], false⟩ := by
  unfold handle_wallet_assignment
  rw [h]

/-- C9 witness: the unregistered fixture worker, which holds no shared
key, drops a concrete wallet assignment without effect. -/
theorem c9_wallet_assignment_without_session_witness :
    handle_wallet_assignment stRegFix envWFix 0 (some "enc") =
      ⟨stRegFix, [], false⟩ :=
  c9_wallet_assignment_without_session stRegFix envWFix 0 (some "enc") rfl

/-- C4: the statistics update is skipped on the mock path and on every
failure path.  A successful mock trade leaves trade_stats and
daily_volume_used untouched; a validation failure leaves trade_stats
untouched; only a successful real trade increments total_trades and the
daily volume.  This contradicts the stated exactly-once update per attempt
and the unconditionally incremented dailyVolumeUsed on success, and leaves
the failed_trades branch of _update_trade_stats unreachable. -/
theorem c4_stats_skipped_on_mock_and_failure :
    (execute_pump_trade cfgMockFix engFix envFix cmdFix).result.success = true ∧
    (execute_pump_trade cfgMockFix engFix envFix cmdFix).engine.trade_stats =
      engFix.trade_stats ∧
    (execute_pump_trade cfgMockFix engFix envFix cmdFix).engine.daily_volume_used =
      engFix.daily_volume_used ∧
    (execute_pump_trade cfgFix engFix envFix cmdNoTokenFix).result.success = false ∧
    (execute_pump_trade cfgFix engFix envFix cmdNoTokenFix).engine.trade_stats =
      engFix.trade_stats ∧
    (execute_pump_trade cfgFix engFix envFix cmdFix).engine.trade_stats.total_trades =
      engFix.trade_stats.total_trades + 1 ∧
    (execute_pump_trade cfgFix engFix envFix cmdFix).engine.daily_volume_used =
      engFix.daily_volume_used + 1 / 100 := by
  norm_num [execute_pump_trade, check_trade_limits, execute_real_trade, mock_trade,
    update_trade_stats, failResult, get_wallet_balance, strTruthy,
    cfgFix, cfgMockFix, engFix, envFix, cmdFix, cmdNoTokenFix, statsZero,
    show String.isEmpty "TOKEN1" = false from rfl]

/-- Helper: when the validation sequence rejects a command, execute_pump_trade
returns the failure result built from that rejection without entering the
gateway. -/
theorem execute_pump_trade_of_invalid (cfg : WorkerConfig) (st : EngineState)
    (env : TradeEnv) (command : PumpCommand) (e : TradeError)
    (hval : validate_pump_command cfg st env command = some e) :
    (execute_pump_trade cfg st env command).result = failResult command e env ∧
    (execute_pump_trade cfg st env command).gateway_executions = 0 := by
  cases h1 : strTruthy command.token_address
  · simp only [validate_pump_command, h1, Bool.not_false, if_true] at hval
    injection hval with hval
    subst hval
    simp [execute_pump_trade, h1]
  · cases h2 : st.has_keypair
    · simp only [validate_pump_command, h1, h2, Bool.not_true, Bool.not_false,
        Bool.false_eq_true, if_false, if_true] at hval
      injection hval with hval
      subst hval
      simp [execute_pump_trade, h1, h2]
    · rcases hpair : check_trade_limits cfg st env
        (command.amount_sol.getD cfg.trade_amount_sol) with ⟨o, st2⟩
      simp only [validate_pump_command, h1, h2, Bool.not_true, Bool.false_eq_true,
        if_false, hpair] at hval
      subst hval
      simp [execute_pump_trade, h1, h2, hpair]

/-- C5 counterexample to the claim as stated: a pump command with a missing
token address fails validation, yet the handler reports it as a
pump_result message carrying success = false — no pump_error message is
sent. -/
theorem c5_pump_error_counterexample :
    (handle_pump_command cfgFix stRegFix envFix cmdNoTokenFix).sent =
      [.pump_result (some "c1") (failResult cmdNoTokenFix .noTokenAddress envFix)] ∧
    ∀ m ∈ (handle_pump_command cfgFix stRegFix envFix cmdNoTokenFix).sent,
      isPumpError m = false := by
  norm_num [handle_pump_command, execute_pump_trade, send_message, strTruthy,
    cfgFix, stRegFix, engFix, envFix, cmdFix, cmdNoTokenFix, statsZero, isPumpError]

/-- C5 (amended): every validation failure is non-fatal — no exception
escapes the handler, the connection state and running flag are unchanged,
the gateway is never entered — and the failure is reported to the
coordinator as a pump_result message with success = false carrying the
rejection and the command id (not as a pump_error, which is reserved for a
missing engine or a failed send). -/
theorem c5_validation_failure_reported (cfg : WorkerConfig) (st : WorkerState)
    (env : TradeEnv) (command : PumpCommand) (eng : EngineState) (e : TradeError)
    (heng : st.engine = some eng) (hopen : st.websocket_open = true)
    (hval : validate_pump_command cfg eng env command = some e) :
    (handle_pump_command cfg st env command).escaped = false ∧
    (handle_pump_command cfg st env command).state.websocket_open =
      st.websocket_open ∧
    (handle_pump_command cfg st env command).state.is_running = st.is_running ∧
    (execute_pump_trade cfg eng env command).gateway_executions = 0 ∧
    (handle_pump_command cfg st env command).sent =
      [.pump_result command.command_id (failResult command e env)] := by
  obtain ⟨hres, hexe⟩ := execute_pump_trade_of_invalid cfg eng env command e hval
  refine ⟨?_, ?_, ?_, hexe, ?_⟩ <;>
    simp [handle_pump_command, heng, send_message, hopen, hres]

/-- C5 witness: the fixture worker reports the missing-token rejection as
a pump_result with the rejection inside. -/
theorem c5_validation_failure_reported_witness :
    (handle_pump_command cfgFix stRegFix envFix cmdNoTokenFix).sent =
      [.pump_result cmdNoTokenFix.command_id
        (failResult cmdNoTokenFix .noTokenAddress envFix)] :=
  (c5_validation_failure_reported cfgFix stRegFix envFix cmdNoTokenFix engFix
    .noTokenAddress rfl rfl rfl).2.2.2.2

/-- C7 counterexample to the claim as stated: a registration_success whose
key-derivation handler fails is caught at the dispatch boundary (the error
metric is incremented) but produces no error-response message at all, so
not every handler failure is converted into an error response carrying a
correlation id. -/
theorem c7_error_response_counterexample :
    (process_message (fun _ _ => none) cfgFix stRegFix envWFix
      (.registration_success (some "pk"))).2 = [] ∧
    (process_message (fun _ _ => none) cfgFix stRegFix envWFix
      (.registration_success (some "pk"))).1.metrics_errors =
      stRegFix.metrics_errors + 1 := by
  norm_num [process_message, dispatch_message, handle_registration_success,
    initialize_encryption, stRegFix, strTruthy,
    show String.isEmpty "pk" = false from rfl,
    show String.isEmpty "sk" = false from rfl]

/-- C7 (amended): no handler failure terminates the receive loop —
_process_message catches every escaping handler exception, increments the
error metric and returns normally with the handler's sent messages; and a
failing pump_command handler is the one converted into an error response,
a pump_error carrying the original command's correlation id, without
escaping. -/
theorem c7_handler_failures_contained (derive : String → String → Option Bytes)
    (cfg : WorkerConfig) (st : WorkerState) (env : WorkerEnv) (msg : InMessage)
    (command : PumpCommand)
    (heng : st.engine = none) (hopen : st.websocket_open = true) :
    (∀ d, d = dispatch_message derive cfg
        { st with messages_received := st.messages_received + 1 } env msg →
      process_message derive cfg st env msg =
        (if d.escaped then
          ({ d.state with metrics_errors := d.state.metrics_errors + 1 }, d.sent)
         else
          (d.state, d.sent))) ∧
    (handle_pump_command cfg st env.trade command).sent =
      [.pump_error command.command_id "trading engine not initialized"] ∧
    (handle_pump_command cfg st env.trade command).escaped = false := by
  refine ⟨?_, ?_, ?_⟩
  · intro d hd
    subst hd
    rfl
  · simp [handle_pump_command, heng, send_message, hopen]
  · simp [handle_pump_command, heng, send_message, hopen]

/-- C7 witness: with no trading engine, a concrete pump command is
answered by a pump_error carrying its command id. -/
theorem c7_handler_failures_contained_witness :
    (handle_pump_command cfgFix stNoEngFix envWFix.trade cmdFix).sent =
      [.pump_error cmdFix.command_id "trading engine not initialized"] :=
  (c7_handler_failures_contained (fun _ _ => none) cfgFix stNoEngFix envWFix
    .heartbeat_request cmdFix rfl rfl).2.1

/-- Helper: _initialize_encryption never changes the encryption flag or
the key material, only the shared key. -/
theorem initialize_encryption_keys (derive : String → String → Option Bytes)
    (st : WorkerState) :
    (initialize_encryption derive st).1.encryption_enabled = st.encryption_enabled ∧
    (initialize_encryption derive st).1.worker_private_key = st.worker_private_key ∧
    (initialize_encryption derive st).1.coordinator_public_key =
      st.coordinator_public_key := by
  unfold initialize_encryption
  repeat' split
  all_goals simp

/-- Helper: _initialize_encryption preserves the session-key consistency
invariant — it only installs a shared key it just derived from the stored
key material. -/
theorem initialize_encryption_inv (derive : String → String → Option Bytes)
    (st : WorkerState) (hinv : crypto_inv derive st) :
    crypto_inv derive (initialize_encryption derive st).1 := by
  unfold initialize_encryption
  split
  · exact hinv
  · split
    · rename_i sk pk hw hc
      split
      · exact hinv
      · rename_i hempty
        split
        · rename_i s hd
          intro s' hs'
          simp only at hs'
          injection hs' with hs'
          subst hs'
          refine ⟨sk, pk, hw, hc, ?_, ?_, hd⟩
          · simp only [Bool.not_eq_true, Bool.or_eq_false_iff] at hempty
            exact hempty.1
          · simp only [Bool.not_eq_true, Bool.or_eq_false_iff] at hempty
            exact hempty.2
        · exact hinv
    · exact hinv

/-- Helper: starting with no shared key, _initialize_encryption leaves
exactly the key the current key material derives to (none when disabled, a
key is missing, or the exchange fails). -/
theorem initialize_encryption_shared (derive : String → String → Option Bytes)
    (st : WorkerState) (hsh : st.shared_key = none) :
    (initialize_encryption derive st).1.shared_key = derived_shared derive st := by
  cases he : st.encryption_enabled
  · simp [initialize_encryption, derived_shared, he, hsh]
  · cases hw : st.worker_private_key <;> cases hc : st.coordinator_public_key <;>
      simp only [initialize_encryption, derived_shared, he, hw, hc, Bool.not_true,
        Bool.false_eq_true, if_false, if_true, hsh]
    · rename_i sk pk
      split
      · simp [hsh]
      · cases hd : derive sk pk <;> simp [hd, hsh]

/-- Helper: derived_shared reads only the encryption flag and the two
public-key fields. -/
theorem derived_shared_congr (derive : String → String → Option Bytes)
    (s t : WorkerState)
    (h1 : t.encryption_enabled = s.encryption_enabled)
    (h2 : t.worker_private_key = s.worker_private_key)
    (h3 : t.coordinator_public_key = s.coordinator_public_key) :
    derived_shared derive s = derived_shared derive t := by
  unfold derived_shared
  rw [h1, h2, h3]

/-- C8: the session-key consistency invariant — the shared key, when
present, is exactly the key derived from the worker private key and the
currently stored coordinator public key — is preserved both by
_initialize_encryption and by _handle_registration_success; and whenever
registration_success changes the stored coordinator public key, the
resulting shared key is exactly the derivation from the new key material
(re-derived, or absent when derivation is impossible or fails). -/
theorem c8_shared_key_consistency (derive : String → String → Option Bytes)
    (st : WorkerState) (k : Option String) (hinv : crypto_inv derive st) :
    crypto_inv derive (initialize_encryption derive st).1 ∧
    crypto_inv derive (handle_registration_success derive st k).state ∧
    ((handle_registration_success derive st k).state.coordinator_public_key ≠
        st.coordinator_public_key →
      (handle_registration_success derive st k).state.shared_key =
        derived_shared derive (handle_registration_success derive st k).state) := by
  refine ⟨initialize_encryption_inv derive st hinv, ?_, ?_⟩
  · unfold handle_registration_success
    split
    · rename_i hcond
      apply initialize_encryption_inv
      intro s hs
      obtain ⟨sk, pk, hw, hc, hske, hpke, hd⟩ := hinv s hs
      rw [Bool.and_eq_true] at hcond
      rw [hc] at hcond
      simp [strTruthy, hpke] at hcond
    · exact hinv
  · unfold handle_registration_success
    split
    · rename_i hcond
      intro _
      have hnone : st.shared_key = none := by
        cases hsh : st.shared_key with
        | none => rfl
        | some s =>
          obtain ⟨sk, pk, hw, hc, hske, hpke, hd⟩ := hinv s hsh
          rw [Bool.and_eq_true] at hcond
          rw [hc] at hcond
          simp [strTruthy, hpke] at hcond
      have hsh' : ({ st with coordinator_public_key := k } : WorkerState).shared_key =
          none := hnone
      rw [initialize_encryption_shared derive _ hsh']
      apply derived_shared_congr
      · exact (initialize_encryption_keys derive _).1
      · exact (initialize_encryption_keys derive _).2.1
      · exact (initialize_encryption_keys derive _).2.2
    · intro hne
      exact absurd rfl hne

/-- C8 witness: a registration_success carrying the first coordinator key
leaves the fixture worker holding exactly the key derived from the new
material. -/
theorem c8_shared_key_consistency_witness :
    (handle_registration_success (fun _ _ => some [7]) stRegFix
        (some "pk")).state.shared_key =
      derived_shared (fun _ _ => some [7])
        (handle_registration_success (fun _ _ => some [7]) stRegFix
          (some "pk")).state := by
  refine (c8_shared_key_consistency (fun _ _ => some [7]) stRegFix (some "pk") ?_).2.2 ?_
  · intro s hs
    exact Option.noConfusion hs
  · norm_num [handle_registration_success, initialize_encryption, stRegFix, strTruthy,
      show String.isEmpty "pk" = false from rfl,
      show String.isEmpty "sk" = false from rfl]
    exact Option.noConfusion

/-- C10: when the gateway balance query raises, _get_wallet_balance
reports 0.0, so any otherwise-valid positive-amount command is rejected by
the insufficient-funds check (0 < amount * 1.1) — execute_pump_trade
returns the insufficient-funds failure result without entering the
gateway, never a distinct gateway error and never an unhandled
exception. -/
theorem c10_gateway_outage_rejection (cfg : WorkerConfig) (st : EngineState)
    (env : TradeEnv) (command : PumpCommand) (amount : ℚ)
    (hamt : command.amount_sol = some amount)
    (hout : env.balance_lamports = none)
    (hpos : 0 < amount)
    (htok : strTruthy command.token_address = true)
    (hkp : st.has_keypair = true)
    (hmax : amount ≤ cfg.max_trade_size_sol)
    (hmin : cfg.min_trade_size_sol ≤ amount)
    (hused : 0 ≤ st.daily_volume_used)
    (hdaily : st.daily_volume_used + amount ≤ cfg.daily_trade_limit_sol) :
    get_wallet_balance env.balance_lamports = 0 ∧
    (check_trade_limits cfg st env amount).1 =
      some (.insufficientFunds 0 (amount * (11 / 10 : ℚ))) ∧
    (execute_pump_trade cfg st env command).result =
      failResult command (.insufficientFunds 0 (amount * (11 / 10 : ℚ))) env ∧
    (execute_pump_trade cfg st env command).gateway_executions = 0 := by
  have hbal : get_wallet_balance env.balance_lamports = 0 := by
    simp [get_wallet_balance, hout]
  have hd : ¬ (cfg.daily_trade_limit_sol <
      (if st.last_reset_day < env.current_date then 0 else st.daily_volume_used)
        + amount) := by
    apply not_lt.2
    split <;> linarith
  have hchk : (check_trade_limits cfg st env amount).1 =
      some (.insufficientFunds 0 (amount * (11 / 10 : ℚ))) := by
    rw [check_trade_limits_fst, if_neg (not_lt.2 hmax), if_neg (not_lt.2 hmin),
      if_neg hd, hbal, if_pos (by positivity)]
  refine ⟨hbal, hchk, ?_, ?_⟩ <;>
  · rcases hpair : check_trade_limits cfg st env amount with ⟨o, st2⟩
    rw [hpair] at hchk
    simp only at hchk
    subst hchk
    simp [execute_pump_trade, htok, hkp, hamt, hpair]

/-- C10 witness: with the gateway down, the fixture command for 0.01 SOL
comes back as the insufficient-funds failure result. -/
theorem c10_gateway_outage_rejection_witness :
    (execute_pump_trade cfgFix engFix envOutFix cmdFix).result =
      failResult cmdFix (.insufficientFunds 0 ((1 / 100 : ℚ) * (11 / 10))) envOutFix :=
  (c10_gateway_outage_rejection cfgFix engFix envOutFix cmdFix (1 / 100) rfl rfl
    (by norm_num) rfl rfl (by norm_num [cfgFix]) (by norm_num [cfgFix])
    (by norm_num [engFix]) (by norm_num [engFix, cfgFix])).2.2.1

end Worker
